import Mathlib

/-!
Shallow embedding of `gather_bus_updates.py` and `gather_predictions.py`
(CaramelDunes/pittsburgh_bus_predictions_cmu).

The two scripts share an identical API-access layer (`query_api`,
`get_vehicles`); the predictions script adds `get_predictions` and
`get_predictions_for_vehicles`.  Each script ends with a polling loop that
accumulates records and periodically flushes a deduplicated snapshot of the
whole buffer to a CSV file.

Modelling conventions:
- The remote HTTP service is an oracle `net : Nat → Response` giving the
  response to the k-th remote call of the process (the scripts' requests are
  issued strictly sequentially, so indexing by the call counter is exact).
- A parsed JSON response body is modelled as `Option Envelope`: `some env`
  when the top-level `bustime-response` key is present, `none` when it is
  absent.  The envelope's optional `vehicle` and `prd` list fields are the
  only parts of the payload the scripts inspect.
- Numeric JSON fields that the scripts copy verbatim and never compute with
  (`lat`, `lon`, `pdist`, `spd`, `dstp`) are modelled as `Int`; string fields
  as `String`.
- Python exceptions (`KeyError` from a missing dict key, `IndexError` from
  `vehicles[0]` on an empty list) are modelled with `Except PyErr`.
- The module-level counter `CALLS_COUNT` is threaded explicitly; every
  function that can call the API returns the updated counter.
- Python dicts are insertion-ordered association lists; `d[k] = v` is
  `dictInsert`.
-/

namespace BusData

/-- Python exceptions the scripts can raise on the modelled paths. -/
inductive PyErr where
  | keyError
  | indexError
deriving DecidableEq, Repr

/-- Raw vehicle entry of the `getvehicles` payload (the fields read at
`gather_bus_updates.py` lines 78-87). -/
structure RawVehicle where
  vid : String
  tmstmp : String
  lat : Int
  lon : Int
  des : String
  pid : String
  pdist : Int
  tatripid : String
  spd : Int
  psgld : String
deriving DecidableEq, Repr

/-- Raw prediction entry of the `getpredictions` payload (the fields read at
`gather_predictions.py` lines 107-112). -/
structure RawPrediction where
  tmstmp : String
  stpid : String
  vid : String
  prdtm : String
  tatripid : String
  dstp : Int
  typ : String
deriving DecidableEq, Repr

/-- Contents of the `bustime-response` envelope: the scripts only test for
and read the `vehicle` and `prd` list fields. -/
structure Envelope where
  vehicle : Option (List RawVehicle)
  prd : Option (List RawPrediction)
deriving DecidableEq, Repr

/-- An HTTP response: status code plus parsed JSON body.  The body is
`some env` when the top-level `bustime-response` key is present. -/
structure Response where
  status_code : Nat
  body : Option Envelope
deriving DecidableEq, Repr

/-- Vehicle record as built by `get_vehicles`. -/
structure Vehicle where
  id : String
  timestamp : String
  lat : Int
  lon : Int
  destination : String
  pattern_id : String
  pattern_distance : Int
  trip_id : String
  speed : Int
  passenger_load : String
deriving DecidableEq, Repr

/-- Prediction record as built by `get_predictions`. -/
structure Prediction where
  timestamp : String
  stop_id : String
  vehicle_id : String
  predicted_time : String
  trip_id : String
  distance_to_stop : Int
deriving DecidableEq, Repr

/-- A Python dict of string keys and values, insertion-ordered. -/
abbrev Params := List (String × String)

/-- `d[k] = v`: overwrite in place if `k` is present, else append. -/
def dictInsert (d : Params) (k v : String) : Params :=
  if d.any (fun p => p.1 = k) then
    d.map (fun p => if p.1 = k then (k, v) else p)
  else
    d ++ [(k, v)]

/-- `d[k]` on the read side: the value stored under key `k`, if any. -/
def dictGet (d : Params) (k : String) : Option String :=
  match d with
  | [] => none
  | p :: t => if p.1 = k then some p.2 else dictGet t k

/-- `BUSTIME_API_KEY = os.getenv('BUSTIME_API_KEY')`; the value is opaque
configuration, never inspected by the scripts. -/
def BUSTIME_API_KEY : String := "<BUSTIME_API_KEY>"

def DATAFEED_NAME : String := "Port Authority Bus"

def VEHICLES_ENDPOINT : String := "/getvehicles"

def PREDICTIONS_ENDPOINT : String := "/getpredictions"

/-- The three key injections `query_api` performs on the caller's dict
(lines 38-40). -/
def injectParams (params : Params) : Params :=
  dictInsert (dictInsert (dictInsert params "key" BUSTIME_API_KEY)
    "format" "json") "rtpidatafeed" DATAFEED_NAME

/-- The branch on the response (lines 47-52): on status 200 unwrap
`json.loads(response.text)['bustime-response']` — the subscript raises
`KeyError` when the key is absent; on any other status print and return
`None`. -/
def unwrapEnvelope (response : Response) : Except PyErr (Option Envelope) :=
  if response.status_code = 200 then
    match response.body with
    | some env => Except.ok (some env)
    | none => Except.error PyErr.keyError
  else
    Except.ok none

/-- `query_api(endpoint, params)`.  Injects `key`, `format`, `rtpidatafeed`
into the caller's dict, issues the request, increments `CALLS_COUNT`, and
branches on the response.  Returns (result, new counter, mutated params). -/
def query_api (net : Nat → Response) (endpoint : String) (params : Params)
    (calls : Nat) : Except PyErr (Option Envelope) × Nat × Params :=
  let params1 := injectParams params
  let response := net calls
  (unwrapEnvelope response, calls + 1, params1)

/-- Field mapping of `get_vehicles` (lines 78-87). -/
def vehicleOfRaw (v : RawVehicle) : Vehicle :=
  { id := v.vid
    timestamp := v.tmstmp
    lat := v.lat
    lon := v.lon
    destination := v.des
    pattern_id := v.pid
    pattern_distance := v.pdist
    trip_id := v.tatripid
    speed := v.spd
    passenger_load := v.psgld }

/-- The branch of `get_vehicles` on the `query_api` result (lines 71-89):
`if response is None or 'vehicle' not in response: return []`, else map the
raw entries.  A raised exception propagates. -/
def vehiclesOfResult : Except PyErr (Option Envelope) → Except PyErr (List Vehicle)
  | Except.error e => Except.error e
  | Except.ok none => Except.ok []
  | Except.ok (some env) =>
    match env.vehicle with
    | none => Except.ok []
    | some raw_vehicles => Except.ok (raw_vehicles.map vehicleOfRaw)

/-- `get_vehicles(route_ids)`: one `query_api` call on the vehicles endpoint;
if the call failed or the response lacks the `vehicle` field, returns `[]`. -/
def get_vehicles (net : Nat → Response) (route_ids : String) (calls : Nat) :
    Except PyErr (List Vehicle) × Nat :=
  let params := dictInsert (dictInsert [] "rt" route_ids) "tmres" "s"
  let q := query_api net VEHICLES_ENDPOINT params calls
  (vehiclesOfResult q.1, q.2.1)

/-- Field mapping of `get_predictions` (lines 107-112). -/
def predictionOfRaw (p : RawPrediction) : Prediction :=
  { timestamp := p.tmstmp
    stop_id := p.stpid
    vehicle_id := p.vid
    predicted_time := p.prdtm
    trip_id := p.tatripid
    distance_to_stop := p.dstp }

/-- The branch of `get_predictions` on the `query_api` result (lines
100-114): on a missing response or missing `prd` field return `[]`, else keep
exactly the raw entries with `p['typ'] == 'A'` and map them.  A raised
exception propagates. -/
def predictionsOfResult : Except PyErr (Option Envelope) → Except PyErr (List Prediction)
  | Except.error e => Except.error e
  | Except.ok none => Except.ok []
  | Except.ok (some env) =>
    match env.prd with
    | none => Except.ok []
    | some raw_predictions =>
      Except.ok ((raw_predictions.filter (fun p => p.typ = "A")).map predictionOfRaw)

/-- `get_predictions(vehicle_ids)`: one `query_api` call on the predictions
endpoint, then the filter-and-map branch. -/
def get_predictions (net : Nat → Response) (vehicle_ids : String) (calls : Nat) :
    Except PyErr (List Prediction) × Nat :=
  let params := dictInsert (dictInsert [] "vid" vehicle_ids) "tmres" "s"
  let q := query_api net PREDICTIONS_ENDPOINT params calls
  (predictionsOfResult q.1, q.2.1)

/-- The successive slices `vehicles[i : i+10]` for `i in range(0, len, 10)`:
groups of 10 consecutive elements, the last group holding the at most 10
remaining ones.  (Written with explicit patterns so the recursion is
structural; `chunk10_cons` re-states it as the source's take/drop slices.) -/
def chunk10 : List α → List (List α)
  | x1 :: x2 :: x3 :: x4 :: x5 :: x6 :: x7 :: x8 :: x9 :: x10 :: rest =>
    [x1, x2, x3, x4, x5, x6, x7, x8, x9, x10] :: chunk10 rest
  | [] => []
  | l => [l]

/-- `','.join([str(v['id']) for v in group])`. -/
def joinIds (group : List Vehicle) : String :=
  String.intercalate "," (group.map (fun v => v.id))

/-- The loop body of `get_predictions_for_vehicles`: `acc` is
`total_predictions`, one `get_predictions` call per remaining group, each
result appended on the right; an exception propagates. -/
def gpfv_go (net : Nat → Response) :
    List (List Vehicle) → List Prediction → Nat →
      Except PyErr (List Prediction) × Nat
  | [], acc, calls => (Except.ok acc, calls)
  | g :: gs, acc, calls =>
    match get_predictions net (joinIds g) calls with
    | (Except.error e, calls1) => (Except.error e, calls1)
    | (Except.ok ps, calls1) => gpfv_go net gs (acc ++ ps) calls1

/-- `get_predictions_for_vehicles(vehicles)`: gathers predictions for the
vehicles 10 by 10 (lines 117-128). -/
def get_predictions_for_vehicles (net : Nat → Response) (vehicles : List Vehicle)
    (calls : Nat) : Except PyErr (List Prediction) × Nat :=
  gpfv_go net (chunk10 vehicles) [] calls

/-- A network oracle is well formed when every 200 response carries the
`bustime-response` envelope (the scripts' comment: responses are always
contained in the `bustime-response` object). -/
def NetWF (net : Nat → Response) : Prop :=
  ∀ k, (net k).status_code = 200 → (net k).body ≠ none

/-- `pandas.DataFrame(l).drop_duplicates()`: remove rows equal, as whole
records, to an earlier row; the first occurrence is kept, order preserved.
`seen` accumulates the rows already emitted. -/
def dropDupAux [DecidableEq α] : List α → List α → List α
  | [], _ => []
  | x :: xs, seen =>
    if x ∈ seen then dropDupAux xs seen else x :: dropDupAux xs (x :: seen)

/-- Full-record deduplication performed at each flush. -/
def drop_duplicates [DecidableEq α] (l : List α) : List α :=
  dropDupAux l []

/-- Python `s.replace(' ', '@')`: every space becomes `@`. -/
def replaceSpaceAt (s : String) : String :=
  String.mk (s.data.map (fun c => if c = ' ' then '@' else c))

/-! ### The collection loop of `gather_bus_updates.py` (lines 92-110)

The script hardcodes `ROUTE_ID`, `number_iterations = 3600` and a flush
cadence of 600 ticks; the spec treats the route list, total tick count and
flush cadence as configuration loaded at process start, so the loop is
embedded with those as parameters and the script's constants are recorded
separately.  A flush writes one CSV file; the file system is modelled as the
ordered log of writes (file name, written rows after deduplication). -/

namespace GatherBus

/-- `ROUTE_ID` of `gather_bus_updates.py`. -/
def ROUTE_ID : String := "61A,61B,61C,61D,71A,71B,71C"

/-- `number_iterations` of `gather_bus_updates.py`. -/
def number_iterations : Nat := 3600

/-- Flush cadence hardcoded at line 101. -/
def FLUSH_EVERY : Nat := 600

/-- Loop state: the growing `vehicles` buffer, the call counter, and the log
of files written so far. -/
structure State where
  vehicles : List Vehicle
  calls : Nat
  files : List (String × List Vehicle)
deriving DecidableEq, Repr

/-- Initial state (`vehicles = []`, `CALLS_COUNT = 0`, nothing written). -/
def init : State := { vehicles := [], calls := 0, files := [] }

/-- One iteration of the loop at index `i` (0-based, as Python's `range`):
fetch vehicles, append to the buffer, and if `(i + 1) % flushEvery == 0`
write `pd.DataFrame(vehicles).drop_duplicates()` to
`vehicles{from_date}-{to_date}.csv`.  `vehicles[0]` raises `IndexError` when
the buffer is empty. -/
def step (net : Nat → Response) (routeIds : String) (flushEvery : Nat)
    (i : Nat) (st : State) : Except PyErr State :=
  let g := get_vehicles net routeIds st.calls
  match g.1 with
  | Except.error e => Except.error e
  | Except.ok vehicles_now =>
    let vehicles1 := st.vehicles ++ vehicles_now
    if (i + 1) % flushEvery = 0 then
      match vehicles1 with
      | [] => Except.error PyErr.indexError
      | v0 :: rest =>
        let from_date := replaceSpaceAt v0.timestamp
        let to_date := replaceSpaceAt (((v0 :: rest).getLast (by simp)).timestamp)
        let name := "vehicles" ++ from_date ++ "-" ++ to_date ++ ".csv"
        Except.ok
          { vehicles := vehicles1
            calls := g.2
            files := st.files ++ [(name, drop_duplicates vehicles1)] }
    else
      Except.ok { vehicles := vehicles1, calls := g.2, files := st.files }

/-- Run the loop from iteration index `i` for `fuel` more iterations. -/
def runFrom (net : Nat → Response) (routeIds : String) (flushEvery : Nat) :
    Nat → Nat → State → Except PyErr State
  | _, 0, st => Except.ok st
  | i, fuel + 1, st =>
    match step net routeIds flushEvery i st with
    | Except.error e => Except.error e
    | Except.ok st1 => runFrom net routeIds flushEvery (i + 1) fuel st1

/-- The whole collection loop: `for i in range(number_iterations)`. -/
def run (net : Nat → Response) (routeIds : String) (flushEvery n : Nat) :
    Except PyErr State :=
  runFrom net routeIds flushEvery 0 n init

end GatherBus

/-! ### The collection loop of `gather_predictions.py` (lines 131-154)

Same parameterization; this script keeps two buffers and writes two files
per flush, both named from `now = int(time.time())` captured once at run
start. -/

namespace GatherPred

/-- `ROUTE_ID` of `gather_predictions.py`. -/
def ROUTE_ID : String := "61A,61B"

/-- `number_iterations` of `gather_predictions.py`. -/
def number_iterations : Nat := 1440

/-- Flush cadence hardcoded at line 144. -/
def FLUSH_EVERY : Nat := 120

/-- Loop state of the predictions script: both buffers, the call counter,
and one write log per record type. -/
structure State where
  predictions : List Prediction
  vehicles : List Vehicle
  calls : Nat
  predFiles : List (String × List Prediction)
  vehFiles : List (String × List Vehicle)
deriving DecidableEq, Repr

/-- Initial state. -/
def init : State :=
  { predictions := [], vehicles := [], calls := 0, predFiles := [], vehFiles := [] }

/-- One iteration at index `i`: fetch vehicles, fetch their predictions 10 by
10, append both to the buffers, and on `(i + 1) % flushEvery == 0` write the
deduplicated buffers to `predictions{now}.csv` and `vehicles{now}.csv`. -/
def step (net : Nat → Response) (routeIds : String) (flushEvery : Nat)
    (now : Int) (i : Nat) (st : State) : Except PyErr State :=
  let g := get_vehicles net routeIds st.calls
  match g.1 with
  | Except.error e => Except.error e
  | Except.ok vehicles_now =>
    let q := get_predictions_for_vehicles net vehicles_now g.2
    match q.1 with
    | Except.error e => Except.error e
    | Except.ok predictions_now =>
      let predictions1 := st.predictions ++ predictions_now
      let vehicles1 := st.vehicles ++ vehicles_now
      if (i + 1) % flushEvery = 0 then
        Except.ok
          { predictions := predictions1
            vehicles := vehicles1
            calls := q.2
            predFiles := st.predFiles ++
              [("predictions" ++ toString now ++ ".csv", drop_duplicates predictions1)]
            vehFiles := st.vehFiles ++
              [("vehicles" ++ toString now ++ ".csv", drop_duplicates vehicles1)] }
      else
        Except.ok
          { predictions := predictions1
            vehicles := vehicles1
            calls := q.2
            predFiles := st.predFiles
            vehFiles := st.vehFiles }

/-- Run the loop from iteration index `i` for `fuel` more iterations. -/
def runFrom (net : Nat → Response) (routeIds : String) (flushEvery : Nat)
    (now : Int) : Nat → Nat → State → Except PyErr State
  | _, 0, st => Except.ok st
  | i, fuel + 1, st =>
    match step net routeIds flushEvery now i st with
    | Except.error e => Except.error e
    | Except.ok st1 => runFrom net routeIds flushEvery now (i + 1) fuel st1

/-- The whole collection loop: `for i in range(number_iterations)`. -/
def run (net : Nat → Response) (routeIds : String) (flushEvery : Nat)
    (now : Int) (n : Nat) : Except PyErr State :=
  runFrom net routeIds flushEvery now 0 n init

end GatherPred

/-! ### Python default-argument semantics for `query_api`

`def query_api(endpoint, params={})` evaluates `{}` once at function
definition time; every call that omits `params` receives the same dict
object, and the in-place key injections persist in it across such calls.
`DefaultDictState` carries that shared object explicitly. -/

/-- The shared module state relevant to a no-argument `query_api` call: the
call counter and the single dict object bound to the `params` default. -/
structure DefaultDictState where
  calls : Nat
  defaultParams : Params
deriving DecidableEq, Repr

/-- The module state at interpreter start: counter 0, default dict empty. -/
def initDefaultDictState : DefaultDictState :=
  { calls := 0, defaultParams := [] }

/-- `query_api(endpoint)` with the `params` argument omitted: the shared
default dict is used as `params` and the mutation is stored back into it. -/
def query_api_noArg (net : Nat → Response) (endpoint : String)
    (ms : DefaultDictState) :
    Except PyErr (Option Envelope) × DefaultDictState :=
  match query_api net endpoint ms.defaultParams ms.calls with
  | (res, calls1, params1) => (res, { calls := calls1, defaultParams := params1 })

/-! ### Basic lemmas about the embedded operations -/

theorem query_api_calls (net : Nat → Response) (endpoint : String)
    (params : Params) (calls : Nat) :
    (query_api net endpoint params calls).2.1 = calls + 1 := rfl

theorem get_vehicles_calls (net : Nat → Response) (route_ids : String)
    (calls : Nat) : (get_vehicles net route_ids calls).2 = calls + 1 := rfl

theorem get_predictions_calls (net : Nat → Response) (vehicle_ids : String)
    (calls : Nat) : (get_predictions net vehicle_ids calls).2 = calls + 1 := rfl

theorem mem_dropDupAux [DecidableEq α] (x : α) :
    ∀ (l seen : List α), x ∈ dropDupAux l seen ↔ x ∈ l ∧ x ∉ seen
  | [], seen => by simp [dropDupAux]
  | y :: ys, seen => by
    by_cases hy : y ∈ seen
    · rw [dropDupAux, if_pos hy, mem_dropDupAux x ys seen]
      simp only [List.mem_cons]
      constructor
      · rintro ⟨hmem, hns⟩; exact ⟨Or.inr hmem, hns⟩
      · rintro ⟨hx | hmem, hns⟩
        · exact absurd (hx ▸ hy) hns
        · exact ⟨hmem, hns⟩
    · rw [dropDupAux, if_neg hy]
      simp only [List.mem_cons, mem_dropDupAux x ys (y :: seen)]
      constructor
      · rintro (rfl | ⟨hmem, hns⟩)
        · exact ⟨Or.inl rfl, hy⟩
        · exact ⟨Or.inr hmem, fun hc => hns (Or.inr hc)⟩
      · rintro ⟨hx | hmem, hns⟩
        · exact Or.inl hx
        · by_cases hxy : x = y
          · exact Or.inl hxy
          · exact Or.inr ⟨hmem, by simp [hxy, hns]⟩

theorem nodup_dropDupAux [DecidableEq α] :
    ∀ (l seen : List α), (dropDupAux l seen).Nodup
  | [], _ => by simp [dropDupAux]
  | y :: ys, seen => by
    by_cases hy : y ∈ seen
    · rw [dropDupAux, if_pos hy]; exact nodup_dropDupAux ys seen
    · rw [dropDupAux, if_neg hy]
      refine List.Nodup.cons ?_ (nodup_dropDupAux ys (y :: seen))
      intro hc
      exact ((mem_dropDupAux y ys (y :: seen)).1 hc).2 (List.mem_cons_self y seen)

theorem dropDupAux_eq_self [DecidableEq α] :
    ∀ (l seen : List α), l.Nodup → (∀ x ∈ l, x ∉ seen) → dropDupAux l seen = l
  | [], _, _, _ => rfl
  | y :: ys, seen, hnd, hdis => by
    rw [dropDupAux, if_neg (hdis y (List.mem_cons_self y ys))]
    refine congrArg (y :: ·) (dropDupAux_eq_self ys (y :: seen) hnd.of_cons ?_)
    intro x hx
    simp only [List.mem_cons, not_or]
    exact ⟨fun hxy => (List.nodup_cons.1 hnd).1 (hxy ▸ hx), hdis x (List.mem_cons_of_mem y hx)⟩

theorem mem_drop_duplicates [DecidableEq α] (x : α) (l : List α) :
    x ∈ drop_duplicates l ↔ x ∈ l := by
  rw [drop_duplicates, mem_dropDupAux]; simp

theorem nodup_drop_duplicates [DecidableEq α] (l : List α) :
    (drop_duplicates l).Nodup := nodup_dropDupAux l []

theorem drop_duplicates_of_nodup [DecidableEq α] (l : List α) (h : l.Nodup) :
    drop_duplicates l = l := dropDupAux_eq_self l [] h (by simp)

theorem drop_duplicates_idem [DecidableEq α] (l : List α) :
    drop_duplicates (drop_duplicates l) = drop_duplicates l :=
  drop_duplicates_of_nodup _ (nodup_drop_duplicates l)

/-! ### Lemmas about the 10-by-10 chunking -/

theorem chunk10_nil : chunk10 (α := α) [] = [] := rfl

theorem chunk10_cons (x : α) (xs : List α) :
    chunk10 (x :: xs) = (x :: xs).take 10 :: chunk10 ((x :: xs).drop 10) := by
  rcases xs with _ | ⟨x2, xs⟩; · rfl
  rcases xs with _ | ⟨x3, xs⟩; · rfl
  rcases xs with _ | ⟨x4, xs⟩; · rfl
  rcases xs with _ | ⟨x5, xs⟩; · rfl
  rcases xs with _ | ⟨x6, xs⟩; · rfl
  rcases xs with _ | ⟨x7, xs⟩; · rfl
  rcases xs with _ | ⟨x8, xs⟩; · rfl
  rcases xs with _ | ⟨x9, xs⟩; · rfl
  rcases xs with _ | ⟨x10, xs⟩; · rfl
  rfl

theorem chunk10_flatten : ∀ (l : List α), (chunk10 l).flatten = l
  | [] => by rw [chunk10_nil]; rfl
  | x :: xs => by
    rw [chunk10_cons, List.flatten_cons, chunk10_flatten ((x :: xs).drop 10),
      List.take_append_drop]
termination_by l => l.length
decreasing_by simp [List.length_drop]; omega

theorem chunk10_length_le :
    ∀ (l : List α), ∀ c ∈ chunk10 l, c.length ≤ 10 ∧ c ≠ []
  | [] => by rw [chunk10_nil]; simp
  | x :: xs => by
    rw [chunk10_cons]
    intro c hc
    rcases List.mem_cons.1 hc with rfl | hmem
    · exact ⟨List.length_take_le 10 (x :: xs), by simp⟩
    · exact chunk10_length_le ((x :: xs).drop 10) c hmem
termination_by l => l.length
decreasing_by simp [List.length_drop]; omega

theorem chunk10_eq_nil_iff (l : List α) : chunk10 l = [] ↔ l = [] := by
  cases l with
  | nil => simp [chunk10_nil]
  | cons x xs => rw [chunk10_cons]; simp

theorem chunk10_count :
    ∀ (l : List α), (chunk10 l).length = (l.length + 9) / 10
  | [] => by rw [chunk10_nil]; simp
  | x :: xs => by
    rw [chunk10_cons, List.length_cons, chunk10_count ((x :: xs).drop 10)]
    simp only [List.length_drop, List.length_cons]
    omega
termination_by l => l.length
decreasing_by simp [List.length_drop]; omega

theorem chunk10_dropLast_length :
    ∀ (l : List α), ∀ c ∈ (chunk10 l).dropLast, c.length = 10
  | [] => by rw [chunk10_nil]; simp
  | x :: xs => by
    rw [chunk10_cons]
    by_cases hrest : (x :: xs).drop 10 = []
    · rw [hrest, chunk10_nil]; simp
    · have hne : chunk10 ((x :: xs).drop 10) ≠ [] := by
        simpa [chunk10_eq_nil_iff] using hrest
      rw [List.dropLast_cons_of_ne_nil hne]
      intro c hc
      rcases List.mem_cons.1 hc with rfl | hmem
      · have h10 : 10 ≤ (x :: xs).length := by
          by_contra hlt
          exact hrest (List.drop_eq_nil_of_le (by omega))
        simp only [List.length_take, List.length_cons] at *
        omega
      · exact chunk10_dropLast_length ((x :: xs).drop 10) c hmem
termination_by l => l.length
decreasing_by simp [List.length_drop]; omega

/-- The successive chunk lengths produced by slicing a list of length `n`
into pieces of 10. -/
def chunkLens : Nat → List Nat
  | 0 => []
  | n + 1 => Nat.min (n + 1) 10 :: chunkLens (n + 1 - 10)
termination_by n => n
decreasing_by omega

theorem chunk10_map_length :
    ∀ l : List α, (chunk10 l).map List.length = chunkLens l.length
  | [] => by rw [chunk10_nil]; simp [chunkLens]
  | x :: xs => by
    rw [chunk10_cons, List.map_cons, chunk10_map_length ((x :: xs).drop 10)]
    rw [List.length_cons, chunkLens]
    simp only [List.length_take, List.length_drop, List.length_cons]
    congr 1
    exact Nat.min_comm 10 (xs.length + 1)
termination_by l => l.length
decreasing_by simp [List.length_drop]; omega

/-! ### Behavior of the fetchers under failures and well-formed responses -/

theorem unwrapEnvelope_of_fail (r : Response) (h : r.status_code ≠ 200) :
    unwrapEnvelope r = Except.ok none := by
  rw [unwrapEnvelope, if_neg h]

theorem unwrapEnvelope_ok_of_wf (net : Nat → Response) (hwf : NetWF net)
    (k : Nat) : ∃ v, unwrapEnvelope (net k) = Except.ok v := by
  rw [unwrapEnvelope]
  by_cases h : (net k).status_code = 200
  · rw [if_pos h]
    rcases hb : (net k).body with _ | env
    · exact absurd hb (hwf k h)
    · exact ⟨some env, rfl⟩
  · rw [if_neg h]; exact ⟨none, rfl⟩

theorem get_predictions_ok_of_wf (net : Nat → Response) (hwf : NetWF net)
    (vehicle_ids : String) (calls : Nat) :
    ∃ ps, get_predictions net vehicle_ids calls = (Except.ok ps, calls + 1) := by
  rcases unwrapEnvelope_ok_of_wf net hwf calls with ⟨v, hv⟩
  rcases v with _ | env
  · exact ⟨[], by rw [get_predictions]; rw [query_api]; rw [hv]; rfl⟩
  · rcases hp : env.prd with _ | raws
    · refine ⟨[], ?_⟩
      rw [get_predictions, query_api, hv]
      simp [predictionsOfResult, hp]
    · refine ⟨(raws.filter (fun p => p.typ = "A")).map predictionOfRaw, ?_⟩
      rw [get_predictions, query_api, hv]
      simp [predictionsOfResult, hp]

theorem get_predictions_of_fail (net : Nat → Response) (vehicle_ids : String)
    (calls : Nat) (h : (net calls).status_code ≠ 200) :
    get_predictions net vehicle_ids calls = (Except.ok [], calls + 1) := by
  rw [get_predictions, query_api, unwrapEnvelope_of_fail (net calls) h]
  rfl

theorem get_vehicles_of_fail (net : Nat → Response) (route_ids : String)
    (calls : Nat) (h : (net calls).status_code ≠ 200) :
    get_vehicles net route_ids calls = (Except.ok [], calls + 1) := by
  rw [get_vehicles, query_api, unwrapEnvelope_of_fail (net calls) h]
  rfl

theorem gpfv_go_calls (net : Nat → Response) (hwf : NetWF net) :
    ∀ (gs : List (List Vehicle)) (acc : List Prediction) (calls : Nat),
      (gpfv_go net gs acc calls).2 = calls + gs.length
  | [], _, _ => rfl
  | g :: gs, acc, calls => by
    rcases get_predictions_ok_of_wf net hwf (joinIds g) calls with ⟨ps, hps⟩
    have ih := gpfv_go_calls net hwf gs (acc ++ ps) (calls + 1)
    simp only [gpfv_go, hps, List.length_cons, ih]
    omega

theorem gpfv_go_failed_group (net : Nat → Response) (g : List Vehicle)
    (gs : List (List Vehicle)) (acc : List Prediction) (calls : Nat)
    (hfail : (net calls).status_code ≠ 200) :
    gpfv_go net (g :: gs) acc calls = gpfv_go net gs acc (calls + 1) := by
  simp only [gpfv_go, get_predictions_of_fail net (joinIds g) calls hfail,
    List.append_nil]

/-! ### Dict lookup lemmas -/

theorem dictGet_overwrite (k v : String) :
    ∀ d : Params, d.any (fun p => p.1 = k) = true →
      dictGet (d.map (fun p => if p.1 = k then (k, v) else p)) k = some v
  | [], h => by simp at h
  | a :: t, h => by
    by_cases hak : a.1 = k
    · simp [dictGet, hak]
    · have h1 : t.any (fun p => p.1 = k) = true := by
        simp only [List.any_cons, Bool.or_eq_true, decide_eq_true_iff] at h ⊢
        exact h.resolve_left hak
      simp only [List.map_cons, if_neg hak, dictGet, hak, if_false]
      exact dictGet_overwrite k v t h1

theorem dictGet_append_new (k v : String) :
    ∀ d : Params, (∀ p ∈ d, p.1 ≠ k) →
      dictGet (d ++ [(k, v)]) k = some v
  | [], _ => by simp [dictGet]
  | a :: t, h => by
    simp only [List.cons_append, dictGet, if_neg (h a (List.mem_cons_self a t))]
    exact dictGet_append_new k v t (fun p hp => h p (List.mem_cons_of_mem a hp))

theorem dictGet_map_overwrite_ne (k v k' : String) (hne : k' ≠ k) :
    ∀ d : Params,
      dictGet (d.map (fun p => if p.1 = k then (k, v) else p)) k' = dictGet d k'
  | [] => rfl
  | a :: t => by
    by_cases hak : a.1 = k
    · have hka : a.1 ≠ k' := fun e => hne (e.symm.trans hak)
      simp only [List.map_cons, if_pos hak, dictGet,
        if_neg (fun e : k = k' => hne e.symm), if_neg hka]
      exact dictGet_map_overwrite_ne k v k' hne t
    · simp only [List.map_cons, if_neg hak, dictGet]
      by_cases hk' : a.1 = k'
      · simp [hk']
      · rw [if_neg hk', if_neg hk']
        exact dictGet_map_overwrite_ne k v k' hne t

theorem dictGet_append_ne (k v k' : String) (hne : k' ≠ k) :
    ∀ d : Params, dictGet (d ++ [(k, v)]) k' = dictGet d k'
  | [] => by
    simp only [List.nil_append, dictGet, if_neg (fun e : k = k' => hne e.symm)]
  | a :: t => by
    simp only [List.cons_append, dictGet]
    by_cases hk' : a.1 = k'
    · simp [hk']
    · rw [if_neg hk', if_neg hk']
      exact dictGet_append_ne k v k' hne t

theorem dictGet_dictInsert_self (d : Params) (k v : String) :
    dictGet (dictInsert d k v) k = some v := by
  rw [dictInsert]
  split
  · exact dictGet_overwrite k v d (by assumption)
  · rename_i h
    refine dictGet_append_new k v d ?_
    intro p hp he
    exact h (List.any_eq_true.2 ⟨p, hp, decide_eq_true he⟩)

theorem dictGet_dictInsert_ne (d : Params) (k v k' : String) (hne : k' ≠ k) :
    dictGet (dictInsert d k v) k' = dictGet d k' := by
  rw [dictInsert]
  split
  · exact dictGet_map_overwrite_ne k v k' hne d
  · exact dictGet_append_ne k v k' hne d

/-! ### Structure of the `gather_bus_updates.py` loop -/

namespace GatherBus

theorem bus_step_ok (net : Nat → Response) (routeIds : String) (fe i : Nat)
    (st st1 : State) (h : step net routeIds fe i st = Except.ok st1) :
    (∃ new, st1.vehicles = st.vehicles ++ new)
    ∧ st1.calls = st.calls + 1
    ∧ ((i + 1) % fe = 0 →
        ∃ name, st1.files = st.files ++ [(name, drop_duplicates st1.vehicles)])
    ∧ ((i + 1) % fe ≠ 0 → st1.files = st.files) := by
  have hc : (get_vehicles net routeIds st.calls).2 = st.calls + 1 :=
    get_vehicles_calls net routeIds st.calls
  rw [step] at h
  split at h
  · exact absurd h (by simp)
  · rename_i vn heq
    split at h
    · rename_i hf
      dsimp only at h
      split at h
      · exact absurd h (by simp)
      · rename_i v0 rest hxs
        rw [Except.ok.injEq] at h
        subst h
        exact ⟨⟨vn, rfl⟩, hc, fun _ => ⟨_, rfl⟩, fun hn => absurd hf hn⟩
    · rename_i hf
      rw [Except.ok.injEq] at h
      subst h
      exact ⟨⟨vn, rfl⟩, hc, fun hflush => absurd hflush hf, fun _ => rfl⟩

/-- The flush invariant of C3: every written file is duplicate-free and a
subset of the current buffer, and file contents grow along the write log. -/
def Inv (st : State) : Prop :=
  (∀ f ∈ st.files, (f.2).Nodup ∧ ∀ x ∈ f.2, x ∈ st.vehicles)
  ∧ st.files.Pairwise (fun f g => ∀ x ∈ f.2, x ∈ g.2)

theorem bus_step_preserves_inv (net : Nat → Response) (routeIds : String)
    (fe i : Nat) (st st1 : State) (h : step net routeIds fe i st = Except.ok st1)
    (hinv : Inv st) : Inv st1 := by
  rcases bus_step_ok net routeIds fe i st st1 h with ⟨⟨new, hveh⟩, -, hflush, hnoflush⟩
  have hgrow : ∀ x, x ∈ st.vehicles → x ∈ st1.vehicles := by
    intro x hx
    rw [hveh]
    exact List.mem_append_left new hx
  by_cases hf : (i + 1) % fe = 0
  · rcases hflush hf with ⟨name, hfiles⟩
    constructor
    · intro f hfm
      rw [hfiles] at hfm
      rcases List.mem_append.1 hfm with hold | hnew
      · rcases hinv.1 f hold with ⟨hnd, hsub⟩
        exact ⟨hnd, fun x hx => hgrow x (hsub x hx)⟩
      · rcases List.mem_singleton.1 hnew with rfl
        refine ⟨nodup_drop_duplicates _, ?_⟩
        intro x hx
        exact (mem_drop_duplicates x _).1 hx
    · rw [hfiles, List.pairwise_append]
      refine ⟨hinv.2, List.pairwise_singleton _ _, ?_⟩
      intro f hfm g hgm x hx
      rcases List.mem_singleton.1 hgm with rfl
      rw [mem_drop_duplicates]
      exact hgrow x ((hinv.1 f hfm).2 x hx)
  · have hfiles := hnoflush hf
    constructor
    · intro f hfm
      rw [hfiles] at hfm
      rcases hinv.1 f hfm with ⟨hnd, hsub⟩
      exact ⟨hnd, fun x hx => hgrow x (hsub x hx)⟩
    · rw [hfiles]
      exact hinv.2

theorem bus_runFrom_preserves_inv (net : Nat → Response) (routeIds : String)
    (fe : Nat) : ∀ (fuel i : Nat) (st st1 : State),
      runFrom net routeIds fe i fuel st = Except.ok st1 → Inv st → Inv st1
  | 0, i, st, st1, h, hinv => by
    rw [runFrom, Except.ok.injEq] at h
    exact h ▸ hinv
  | fuel + 1, i, st, st1, h, hinv => by
    rw [runFrom] at h
    rcases hs : step net routeIds fe i st with e | st2 <;> rw [hs] at h
    · exact absurd h (by simp)
    · exact bus_runFrom_preserves_inv net routeIds fe fuel (i + 1) st2 st1 h
        (bus_step_preserves_inv net routeIds fe i st st2 hs hinv)

end GatherBus

/-! ### Structure of the `gather_predictions.py` loop -/

namespace GatherPred

theorem pred_step_ok (net : Nat → Response) (routeIds : String) (fe : Nat)
    (now : Int) (i : Nat) (st st1 : State)
    (h : step net routeIds fe now i st = Except.ok st1) :
    (∃ np, st1.predictions = st.predictions ++ np)
    ∧ (∃ nv, st1.vehicles = st.vehicles ++ nv)
    ∧ ((i + 1) % fe = 0 →
        st1.predFiles = st.predFiles ++
          [("predictions" ++ toString now ++ ".csv", drop_duplicates st1.predictions)]
        ∧ st1.vehFiles = st.vehFiles ++
          [("vehicles" ++ toString now ++ ".csv", drop_duplicates st1.vehicles)])
    ∧ ((i + 1) % fe ≠ 0 →
        st1.predFiles = st.predFiles ∧ st1.vehFiles = st.vehFiles) := by
  rw [step] at h
  by_cases hf : (i + 1) % fe = 0
  · simp only [if_pos hf] at h
    split at h
    · exact absurd h (by simp)
    · rename_i vn heqv
      split at h
      · exact absurd h (by simp)
      · rename_i pn heqp
        rw [Except.ok.injEq] at h
        subst h
        exact ⟨⟨pn, rfl⟩, ⟨vn, rfl⟩, fun _ => ⟨rfl, rfl⟩, fun hn => absurd hf hn⟩
  · simp only [if_neg hf] at h
    split at h
    · exact absurd h (by simp)
    · rename_i vn heqv
      split at h
      · exact absurd h (by simp)
      · rename_i pn heqp
        rw [Except.ok.injEq] at h
        subst h
        exact ⟨⟨pn, rfl⟩, ⟨vn, rfl⟩, fun hflush => absurd hflush hf, fun _ => ⟨rfl, rfl⟩⟩

/-- The flush invariant of the predictions loop: every written file carries
the run-constant name, is duplicate-free, is a subset of the corresponding
buffer, and contents grow along each write log. -/
def Inv (now : Int) (st : State) : Prop :=
  (∀ f ∈ st.predFiles,
    f.1 = "predictions" ++ toString now ++ ".csv"
    ∧ (f.2).Nodup ∧ ∀ x ∈ f.2, x ∈ st.predictions)
  ∧ (∀ f ∈ st.vehFiles,
    f.1 = "vehicles" ++ toString now ++ ".csv"
    ∧ (f.2).Nodup ∧ ∀ x ∈ f.2, x ∈ st.vehicles)
  ∧ st.predFiles.Pairwise (fun f g => ∀ x ∈ f.2, x ∈ g.2)
  ∧ st.vehFiles.Pairwise (fun f g => ∀ x ∈ f.2, x ∈ g.2)

theorem log_extend_inv {α : Type} [DecidableEq α] (nm : String)
    (log : List (String × List α)) (buf buf1 : List α)
    (hsub : ∀ f ∈ log, f.1 = nm ∧ (f.2).Nodup ∧ ∀ x ∈ f.2, x ∈ buf)
    (hpw : log.Pairwise (fun f g => ∀ x ∈ f.2, x ∈ g.2))
    (hgrow : ∀ x, x ∈ buf → x ∈ buf1) :
    (∀ f ∈ log ++ [(nm, drop_duplicates buf1)],
      f.1 = nm ∧ (f.2).Nodup ∧ ∀ x ∈ f.2, x ∈ buf1)
    ∧ (log ++ [(nm, drop_duplicates buf1)]).Pairwise
        (fun f g => ∀ x ∈ f.2, x ∈ g.2) := by
  constructor
  · intro f hf
    rcases List.mem_append.1 hf with hold | hnew
    · rcases hsub f hold with ⟨hnm, hnd, hmem⟩
      exact ⟨hnm, hnd, fun x hx => hgrow x (hmem x hx)⟩
    · rcases List.mem_singleton.1 hnew with rfl
      exact ⟨rfl, nodup_drop_duplicates _,
        fun x hx => (mem_drop_duplicates x _).1 hx⟩
  · rw [List.pairwise_append]
    refine ⟨hpw, List.pairwise_singleton _ _, ?_⟩
    intro f hfm g hgm x hx
    rcases List.mem_singleton.1 hgm with rfl
    rw [mem_drop_duplicates]
    exact hgrow x ((hsub f hfm).2.2 x hx)

theorem pred_step_preserves_inv (net : Nat → Response) (routeIds : String)
    (fe : Nat) (now : Int) (i : Nat) (st st1 : State)
    (h : step net routeIds fe now i st = Except.ok st1)
    (hinv : Inv now st) : Inv now st1 := by
  rcases pred_step_ok net routeIds fe now i st st1 h with
    ⟨⟨np, hpred⟩, ⟨nv, hveh⟩, hflush, hnoflush⟩
  have hpgrow : ∀ x, x ∈ st.predictions → x ∈ st1.predictions := by
    intro x hx
    rw [hpred]
    exact List.mem_append_left np hx
  have hvgrow : ∀ x, x ∈ st.vehicles → x ∈ st1.vehicles := by
    intro x hx
    rw [hveh]
    exact List.mem_append_left nv hx
  by_cases hf : (i + 1) % fe = 0
  · rcases hflush hf with ⟨hpfiles, hvfiles⟩
    rcases log_extend_inv _ st.predFiles st.predictions st1.predictions
      hinv.1 hinv.2.2.1 hpgrow with ⟨hp1, hp2⟩
    rcases log_extend_inv _ st.vehFiles st.vehicles st1.vehicles
      hinv.2.1 hinv.2.2.2 hvgrow with ⟨hv1, hv2⟩
    rw [Inv, hpfiles, hvfiles]
    exact ⟨hp1, hv1, hp2, hv2⟩
  · rcases hnoflush hf with ⟨hpfiles, hvfiles⟩
    rw [Inv, hpfiles, hvfiles]
    refine ⟨?_, ?_, hinv.2.2.1, hinv.2.2.2⟩
    · intro f hfm
      rcases hinv.1 f hfm with ⟨hnm, hnd, hmem⟩
      exact ⟨hnm, hnd, fun x hx => hpgrow x (hmem x hx)⟩
    · intro f hfm
      rcases hinv.2.1 f hfm with ⟨hnm, hnd, hmem⟩
      exact ⟨hnm, hnd, fun x hx => hvgrow x (hmem x hx)⟩

theorem pred_runFrom_preserves_inv (net : Nat → Response) (routeIds : String)
    (fe : Nat) (now : Int) : ∀ (fuel i : Nat) (st st1 : State),
      runFrom net routeIds fe now i fuel st = Except.ok st1 →
      Inv now st → Inv now st1
  | 0, i, st, st1, h, hinv => by
    rw [runFrom, Except.ok.injEq] at h
    exact h ▸ hinv
  | fuel + 1, i, st, st1, h, hinv => by
    rw [runFrom] at h
    rcases hs : step net routeIds fe now i st with e | st2 <;> rw [hs] at h
    · exact absurd h (by simp)
    · exact pred_runFrom_preserves_inv net routeIds fe now fuel (i + 1) st2 st1 h
        (pred_step_preserves_inv net routeIds fe now i st st2 hs hinv)

end GatherPred

/-! ### Concrete data used to exercise the claims -/

/-- A raw vehicle entry as the vehicles endpoint returns it. -/
def sampleRawVehicle : RawVehicle :=
  { vid := "3001", tmstmp := "20251012 12:00:00", lat := 40, lon := -79,
    des := "Downtown", pid := "p1", pdist := 100, tatripid := "t1",
    spd := 25, psgld := "HALF_EMPTY" }

/-- A second raw vehicle, observed later. -/
def rawVehicleB : RawVehicle :=
  { vid := "3002", tmstmp := "20251012 12:00:10", lat := 41, lon := -80,
    des := "Oakland", pid := "p2", pdist := 200, tatripid := "t2",
    spd := 20, psgld := "FULL" }

def sampleVehicle : Vehicle := vehicleOfRaw sampleRawVehicle

/-- An arrival-type raw prediction. -/
def rawPredA1 : RawPrediction :=
  { tmstmp := "20251012 12:00:00", stpid := "8161", vid := "3001",
    prdtm := "20251012 12:05:00", tatripid := "t1", dstp := 500, typ := "A" }

/-- A departure-type raw prediction (must be discarded). -/
def rawPredD1 : RawPrediction :=
  { tmstmp := "20251012 12:00:00", stpid := "8161", vid := "3001",
    prdtm := "20251012 12:06:00", tatripid := "t1", dstp := 600, typ := "D" }

/-- A second arrival-type raw prediction. -/
def rawPredA2 : RawPrediction :=
  { tmstmp := "20251012 12:00:10", stpid := "8162", vid := "3002",
    prdtm := "20251012 12:07:00", tatripid := "t2", dstp := 700, typ := "A" }

/-- A service that always answers HTTP 500. -/
def net500 : Nat → Response := fun _ => { status_code := 500, body := none }

/-- A service that always answers 200 with a JSON body lacking the
`bustime-response` key. -/
def cnetNoEnv : Nat → Response := fun _ => { status_code := 200, body := none }

/-- A service that always answers 200 with an envelope holding no `vehicle`
or `prd` field. -/
def cnetOkEmpty : Nat → Response :=
  fun _ => { status_code := 200, body := some { vehicle := none, prd := none } }

/-- A service that always returns one vehicle. -/
def cnetC3 : Nat → Response :=
  fun _ => { status_code := 200,
             body := some { vehicle := some [sampleRawVehicle], prd := none } }

/-- A service returning mixed arrival and departure predictions. -/
def cnetC5 : Nat → Response :=
  fun _ => { status_code := 200,
             body := some { vehicle := none, prd := some [rawPredA1, rawPredD1] } }

/-! ### C1 -/

/-- C1: `get_predictions_for_vehicles` splits the vehicle list into
consecutive groups of at most 10 preserving input order — all groups but the
last of size exactly 10 — issues exactly one remote call per group, i.e.
`⌈N/10⌉` calls in total; a list of 23 ids yields groups of sizes 10, 10 and
3; and a group whose remote call fails contributes an empty sequence while
the remaining groups are still fetched. -/
theorem C1_prediction_batching (net : Nat → Response) (vehicles : List Vehicle)
    (calls : Nat) (hwf : NetWF net) :
    (chunk10 vehicles).flatten = vehicles
    ∧ (∀ c ∈ chunk10 vehicles, c.length ≤ 10 ∧ c ≠ [])
    ∧ (∀ c ∈ (chunk10 vehicles).dropLast, c.length = 10)
    ∧ (get_predictions_for_vehicles net vehicles calls).2 =
        calls + (vehicles.length + 9) / 10
    ∧ (vehicles.length = 23 → (chunk10 vehicles).map List.length = [10, 10, 3])
    ∧ (∀ g gs acc c, (net c).status_code ≠ 200 →
        gpfv_go net (g :: gs) acc c = gpfv_go net gs acc (c + 1)) := by
  refine ⟨chunk10_flatten vehicles, chunk10_length_le vehicles,
    chunk10_dropLast_length vehicles, ?_, ?_,
    fun g gs acc c hc => gpfv_go_failed_group net g gs acc c hc⟩
  · rw [get_predictions_for_vehicles, gpfv_go_calls net hwf, chunk10_count]
  · intro h23
    rw [chunk10_map_length, h23]
    rw [show (23 : Nat) = 22 + 1 from rfl, chunkLens]
    rw [show (22 : Nat) + 1 - 10 = 12 + 1 from rfl, chunkLens]
    rw [show (12 : Nat) + 1 - 10 = 2 + 1 from rfl, chunkLens]
    rw [show (2 : Nat) + 1 - 10 = 0 from rfl, chunkLens]
    norm_num

theorem C1_witness :
    (chunk10 (List.replicate 23 sampleVehicle)).map List.length = [10, 10, 3]
    ∧ (get_predictions_for_vehicles net500
        (List.replicate 23 sampleVehicle) 0).2 = 3 := by
  have h := C1_prediction_batching net500 (List.replicate 23 sampleVehicle) 0
    (fun k hk => by simp [net500] at hk)
  refine ⟨h.2.2.2.2.1 (by simp), ?_⟩
  have h2 := h.2.2.2.1
  simpa using h2

/-! ### C5 -/

/-- C5: `get_predictions` keeps exactly the raw prediction entries whose
type code is `"A"` and discards every other entry at fetch time, so every
returned record stems from an arrival-type raw entry. -/
theorem C5_arrival_filter (net : Nat → Response) (vehicle_ids : String)
    (calls : Nat) (env : Envelope) (raws : List RawPrediction)
    (hresp : net calls = { status_code := 200, body := some env })
    (hprd : env.prd = some raws) :
    (get_predictions net vehicle_ids calls).1 =
      Except.ok ((raws.filter (fun p => p.typ = "A")).map predictionOfRaw)
    ∧ (∀ ps, (get_predictions net vehicle_ids calls).1 = Except.ok ps →
        ∀ q ∈ ps, ∃ r ∈ raws, r.typ = "A" ∧ q = predictionOfRaw r) := by
  have h1 : (get_predictions net vehicle_ids calls).1 =
      Except.ok ((raws.filter (fun p => p.typ = "A")).map predictionOfRaw) := by
    show predictionsOfResult (unwrapEnvelope (net calls)) = _
    rw [hresp]
    simp [unwrapEnvelope, predictionsOfResult, hprd]
  refine ⟨h1, ?_⟩
  intro ps hps q hq
  rw [h1, Except.ok.injEq] at hps
  subst hps
  rcases List.mem_map.1 hq with ⟨r, hrmem, rfl⟩
  rcases List.mem_filter.1 hrmem with ⟨hrmem1, htyp⟩
  exact ⟨r, hrmem1, by simpa using htyp, rfl⟩

theorem C5_witness :
    (get_predictions cnetC5 "3001" 0).1 =
      Except.ok [predictionOfRaw rawPredA1] := by
  have h := C5_arrival_filter cnetC5 "3001" 0
    { vehicle := none, prd := some [rawPredA1, rawPredD1] }
    [rawPredA1, rawPredD1] rfl rfl
  rw [h.1]
  rfl

/-! ### C6 -/

/-- C6: on a non-200 response `get_vehicles` returns the empty sequence
rather than raising, the call counter still increments by exactly one — as
on every `query_api` invocation, success or failure — and the collection
loop proceeds through such a tick with its buffer and write log intact. -/
theorem C6_transport_failure_empty (net : Nat → Response) (route_ids : String)
    (calls : Nat) (hfail : (net calls).status_code ≠ 200) :
    get_vehicles net route_ids calls = (Except.ok [], calls + 1)
    ∧ (∀ endpoint params c, (query_api net endpoint params c).2.1 = c + 1)
    ∧ (∀ routeIds fe i (st : GatherBus.State), st.calls = calls →
        (i + 1) % fe ≠ 0 →
        GatherBus.step net routeIds fe i st =
          Except.ok { vehicles := st.vehicles, calls := calls + 1,
                      files := st.files }) := by
  refine ⟨get_vehicles_of_fail net route_ids calls hfail, fun _ _ _ => rfl, ?_⟩
  intro routeIds fe i st hst hnf
  rw [GatherBus.step]
  simp [hst, get_vehicles_of_fail net routeIds calls hfail, hnf]

theorem C6_witness :
    get_vehicles net500 GatherBus.ROUTE_ID 0 = (Except.ok [], 1)
    ∧ GatherBus.step net500 GatherBus.ROUTE_ID 600 0 GatherBus.init =
        Except.ok { vehicles := [], calls := 1, files := [] } := by
  have h := C6_transport_failure_empty net500 GatherBus.ROUTE_ID 0
    (by simp [net500])
  exact ⟨h.1, h.2.2 GatherBus.ROUTE_ID 600 0 GatherBus.init rfl (by decide)⟩

/-! ### C7 -/

/-- C7: flush-time deduplication is idempotent — deduplicating an already
deduplicated buffer of either record type leaves it unchanged, so flushing
the same buffer twice writes identical file content. -/
theorem C7_dedup_idempotent (vbuf : List Vehicle) (pbuf : List Prediction) :
    drop_duplicates (drop_duplicates vbuf) = drop_duplicates vbuf
    ∧ drop_duplicates (drop_duplicates pbuf) = drop_duplicates pbuf :=
  ⟨drop_duplicates_idem vbuf, drop_duplicates_idem pbuf⟩

/-! ### C10 -/

/-- C10: `query_api` mutates the caller-supplied params dict in place — on
return it additionally holds the `key`, `format` and `rtpidatafeed` entries
while every other entry is untouched — and, since the default `params`
argument is one shared dict object, the injected entries persist in it
across invocations that omit the argument. -/
theorem C10_params_mutation (net net2 : Nat → Response)
    (endpoint endpoint2 : String) (params : Params) (calls : Nat) :
    (dictGet (query_api net endpoint params calls).2.2 "key" =
        some BUSTIME_API_KEY
      ∧ dictGet (query_api net endpoint params calls).2.2 "format" =
          some "json"
      ∧ dictGet (query_api net endpoint params calls).2.2 "rtpidatafeed" =
          some DATAFEED_NAME
      ∧ ∀ k, k ≠ "key" → k ≠ "format" → k ≠ "rtpidatafeed" →
          dictGet (query_api net endpoint params calls).2.2 k = dictGet params k)
    ∧ (dictGet ((query_api_noArg net endpoint
          initDefaultDictState).2.defaultParams) "key" = some BUSTIME_API_KEY
      ∧ dictGet ((query_api_noArg net endpoint
          initDefaultDictState).2.defaultParams) "format" = some "json"
      ∧ dictGet ((query_api_noArg net endpoint
          initDefaultDictState).2.defaultParams) "rtpidatafeed" =
            some DATAFEED_NAME
      ∧ (query_api_noArg net2 endpoint2
            (query_api_noArg net endpoint initDefaultDictState).2).2.defaultParams =
          (query_api_noArg net endpoint initDefaultDictState).2.defaultParams) := by
  refine ⟨⟨?_, ?_, ?_, ?_⟩, by rfl, by rfl, by rfl, by rfl⟩
  · show dictGet (injectParams params) "key" = some BUSTIME_API_KEY
    rw [injectParams,
      dictGet_dictInsert_ne _ _ _ _ (by decide),
      dictGet_dictInsert_ne _ _ _ _ (by decide),
      dictGet_dictInsert_self]
  · show dictGet (injectParams params) "format" = some "json"
    rw [injectParams,
      dictGet_dictInsert_ne _ _ _ _ (by decide),
      dictGet_dictInsert_self]
  · show dictGet (injectParams params) "rtpidatafeed" = some DATAFEED_NAME
    rw [injectParams, dictGet_dictInsert_self]
  · intro k hk hf hr
    show dictGet (injectParams params) k = dictGet params k
    rw [injectParams,
      dictGet_dictInsert_ne _ _ _ _ hr,
      dictGet_dictInsert_ne _ _ _ _ hf,
      dictGet_dictInsert_ne _ _ _ _ hk]

theorem C10_witness :
    dictGet (query_api net500 VEHICLES_ENDPOINT [("rt", "61A,61B")] 0).2.2
        "rt" = some "61A,61B"
    ∧ dictGet (query_api net500 VEHICLES_ENDPOINT [("rt", "61A,61B")] 0).2.2
        "key" = some BUSTIME_API_KEY := by
  have h := C10_params_mutation net500 net500 VEHICLES_ENDPOINT
    PREDICTIONS_ENDPOINT [("rt", "61A,61B")] 0
  exact ⟨(h.1.2.2.2 "rt" (by decide) (by decide) (by decide)).trans rfl, h.1.1⟩

/-! ### C2 -/

/-- C2 counterexample: on a 2xx response whose JSON body lacks the
`bustime-response` key, `query_api` raises `KeyError` and the exception
propagates out of `get_vehicles` and `get_predictions` — the condition is
not turned into empty/absent data. -/
theorem C2_counterexample :
    (query_api cnetNoEnv VEHICLES_ENDPOINT [] 0).1 = Except.error PyErr.keyError
    ∧ (get_vehicles cnetNoEnv "61A,61B" 0).1 = Except.error PyErr.keyError
    ∧ (get_predictions cnetNoEnv "3001" 0).1 = Except.error PyErr.keyError
    ∧ (get_vehicles cnetNoEnv "61A,61B" 0).1 ≠ Except.ok [] :=
  ⟨rfl, rfl, rfl, fun h => Except.noConfusion h⟩

/-- C2 amended: a 2xx response whose body lacks the `bustime-response` key
makes the envelope subscript raise `KeyError`, which propagates through
`get_vehicles`/`get_predictions` and aborts the tick; only a present
envelope missing the expected list field (`vehicle`/`prd`) — like a failed
transport call — is treated as empty data by the callers. -/
theorem C2_envelope_missing_raises (net : Nat → Response) (calls : Nat)
    (endpoint route_ids vehicle_ids : String) (params : Params)
    (env : Envelope) (h200 : (net calls).status_code = 200) :
    ((net calls).body = none →
      (query_api net endpoint params calls).1 = Except.error PyErr.keyError
      ∧ (get_vehicles net route_ids calls).1 = Except.error PyErr.keyError
      ∧ (get_predictions net vehicle_ids calls).1 = Except.error PyErr.keyError
      ∧ ∀ routeIds fe i (st : GatherBus.State), st.calls = calls →
          GatherBus.step net routeIds fe i st = Except.error PyErr.keyError)
    ∧ ((net calls).body = some env → env.vehicle = none →
        (get_vehicles net route_ids calls).1 = Except.ok [])
    ∧ ((net calls).body = some env → env.prd = none →
        (get_predictions net vehicle_ids calls).1 = Except.ok []) := by
  refine ⟨?_, ?_, ?_⟩
  · intro hbody
    have hu : unwrapEnvelope (net calls) = Except.error PyErr.keyError := by
      simp [unwrapEnvelope, h200, hbody]
    have hv : (get_vehicles net route_ids calls).1 = Except.error PyErr.keyError := by
      show vehiclesOfResult (unwrapEnvelope (net calls)) = _
      rw [hu]
      rfl
    refine ⟨hu, hv, ?_, ?_⟩
    · show predictionsOfResult (unwrapEnvelope (net calls)) = _
      rw [hu]
      rfl
    · intro routeIds fe i st hst
      have hv1 : (get_vehicles net routeIds st.calls).1 =
          Except.error PyErr.keyError := by
        show vehiclesOfResult (unwrapEnvelope (net st.calls)) = _
        rw [hst, hu]
        rfl
      rw [GatherBus.step]
      simp [hv1]
  · intro hbody hveh
    show vehiclesOfResult (unwrapEnvelope (net calls)) = _
    simp [unwrapEnvelope, h200, hbody, vehiclesOfResult, hveh]
  · intro hbody hprd
    show predictionsOfResult (unwrapEnvelope (net calls)) = _
    simp [unwrapEnvelope, h200, hbody, predictionsOfResult, hprd]

theorem C2_amended_witness :
    (get_predictions cnetNoEnv "3001,3002" 0).1 = Except.error PyErr.keyError
    ∧ GatherBus.step cnetNoEnv GatherBus.ROUTE_ID 600 0 GatherBus.init =
        Except.error PyErr.keyError := by
  have h := C2_envelope_missing_raises cnetNoEnv 0 PREDICTIONS_ENDPOINT
    "61A" "3001,3002" [] { vehicle := none, prd := none } rfl
  exact ⟨(h.1 rfl).2.2.1,
    (h.1 rfl).2.2.2 GatherBus.ROUTE_ID 600 0 GatherBus.init rfl⟩

/-! ### C3 -/

/-- C3: at every flush the whole current buffer — not a delta — is written
after full-record deduplication, the buffer itself is only ever appended to
(never cleared by a flush), and consequently, within one run, every record
written at an earlier flush also appears in the file of every later flush. -/
theorem C3_cumulative_dedup_flush (net : Nat → Response) (routeIds : String)
    (flushEvery n : Nat) (st1 : GatherBus.State)
    (hrun : GatherBus.run net routeIds flushEvery n = Except.ok st1) :
    (∀ i st st2, GatherBus.step net routeIds flushEvery i st = Except.ok st2 →
      (∃ new, st2.vehicles = st.vehicles ++ new)
      ∧ ((i + 1) % flushEvery = 0 →
          ∃ name, st2.files = st.files ++ [(name, drop_duplicates st2.vehicles)]))
    ∧ (∀ f ∈ st1.files, (f.2).Nodup)
    ∧ st1.files.Pairwise (fun f g => ∀ x ∈ f.2, x ∈ g.2) := by
  have hinv : GatherBus.Inv st1 :=
    GatherBus.bus_runFrom_preserves_inv net routeIds flushEvery n 0 GatherBus.init
      st1 hrun ⟨by simp [GatherBus.init], by simp [GatherBus.init]⟩
  refine ⟨?_, fun f hf => (hinv.1 f hf).1, hinv.2⟩
  intro i st st2 hs
  rcases GatherBus.bus_step_ok net routeIds flushEvery i st st2 hs with
    ⟨hgrow, -, hflush, -⟩
  exact ⟨hgrow, hflush⟩

/-- The final state of a 2-tick, flush-every-tick run against `cnetC3`. -/
def stC3 : GatherBus.State :=
  { vehicles := [sampleVehicle, sampleVehicle]
    calls := 2
    files :=
      [("vehicles20251012@12:00:00-20251012@12:00:00.csv", [sampleVehicle]),
       ("vehicles20251012@12:00:00-20251012@12:00:00.csv", [sampleVehicle])] }

theorem C3_witness :
    (∀ f ∈ stC3.files, (f.2).Nodup)
    ∧ stC3.files.Pairwise (fun f g => ∀ x ∈ f.2, x ∈ g.2) := by
  have h := C3_cumulative_dedup_flush cnetC3 GatherBus.ROUTE_ID 1 2 stC3 rfl
  exact ⟨h.2.1, h.2.2⟩

/-! ### C4 -/

/-- The final state of a 2-tick, flush-every-tick run of the predictions
loop against `cnetOkEmpty`: two flush events, identical file names. -/
def stC4 : GatherPred.State :=
  { predictions := [], vehicles := [], calls := 2
    predFiles :=
      [("predictions1700000000.csv", []), ("predictions1700000000.csv", [])]
    vehFiles :=
      [("vehicles1700000000.csv", []), ("vehicles1700000000.csv", [])] }

/-- C4 counterexample: in one run of the predictions script, two distinct
flush events write to files with the same names (`predictions{now}.csv`,
`vehicles{now}.csv` with `now` fixed at run start), so the second flush
overwrites the first one's files — the names do collide. -/
theorem C4_counterexample :
    GatherPred.run cnetOkEmpty "61A,61B" 1 1700000000 2 = Except.ok stC4
    ∧ stC4.predFiles.map Prod.fst =
        ["predictions1700000000.csv", "predictions1700000000.csv"]
    ∧ ¬ (stC4.predFiles.map Prod.fst).Nodup
    ∧ stC4.vehFiles.map Prod.fst =
        ["vehicles1700000000.csv", "vehicles1700000000.csv"]
    ∧ ¬ (stC4.vehFiles.map Prod.fst).Nodup :=
  ⟨rfl, rfl, by decide, rfl, by decide⟩

/-- C4 amended: each flush writes to files whose names encode the run-start
timestamp (predictions script) or the observed timestamp range (bus
script); within one run of the predictions script every flush reuses the
same two names, so a later flush overwrites an earlier flush's file rather
than creating a new one — losing no records, because each later snapshot's
content is a superset of every earlier one's. -/
theorem C4_run_constant_names (net : Nat → Response) (routeIds : String)
    (flushEvery n : Nat) (now : Int) (st1 : GatherPred.State)
    (hrun : GatherPred.run net routeIds flushEvery now n = Except.ok st1) :
    (∀ f ∈ st1.predFiles, f.1 = "predictions" ++ toString now ++ ".csv")
    ∧ (∀ f ∈ st1.vehFiles, f.1 = "vehicles" ++ toString now ++ ".csv")
    ∧ st1.predFiles.Pairwise (fun f g => ∀ x ∈ f.2, x ∈ g.2)
    ∧ st1.vehFiles.Pairwise (fun f g => ∀ x ∈ f.2, x ∈ g.2) := by
  have hinv : GatherPred.Inv now st1 :=
    GatherPred.pred_runFrom_preserves_inv net routeIds flushEvery now n 0
      GatherPred.init st1 hrun
      ⟨by simp [GatherPred.init], by simp [GatherPred.init],
       by simp [GatherPred.init], by simp [GatherPred.init]⟩
  exact ⟨fun f hf => (hinv.1 f hf).1, fun f hf => (hinv.2.1 f hf).1,
    hinv.2.2.1, hinv.2.2.2⟩

theorem C4_witness :
    (∀ f ∈ stC4.predFiles,
      f.1 = "predictions" ++ toString (1700000000 : Int) ++ ".csv")
    ∧ stC4.predFiles.Pairwise (fun f g => ∀ x ∈ f.2, x ∈ g.2) := by
  have h := C4_run_constant_names cnetOkEmpty "61A,61B" 1 2 1700000000 stC4 rfl
  exact ⟨h.1, h.2.2.1⟩

/-! ### C8 -/

/-- The service behind the 3-tick scenario: one vehicle on ticks 1 and 2, a
second vehicle on tick 3; the prediction calls return one arrival (twice,
the second a duplicate of the first), one discarded departure, and a second
arrival. -/
def cnetC8 : Nat → Response
  | 0 => { status_code := 200,
           body := some { vehicle := some [sampleRawVehicle], prd := none } }
  | 1 => { status_code := 200,
           body := some { vehicle := none, prd := some [rawPredA1, rawPredD1] } }
  | 2 => { status_code := 200,
           body := some { vehicle := some [sampleRawVehicle], prd := none } }
  | 3 => { status_code := 200,
           body := some { vehicle := none, prd := some [rawPredA1] } }
  | 4 => { status_code := 200,
           body := some { vehicle := some [rawVehicleB], prd := none } }
  | _ => { status_code := 200,
           body := some { vehicle := none, prd := some [rawPredA2] } }

/-- Records fetched on tick 1 of the scenario. -/
def predsTick1 : List Prediction := [predictionOfRaw rawPredA1]

/-- Records fetched on tick 2 of the scenario (an exact duplicate). -/
def predsTick2 : List Prediction := [predictionOfRaw rawPredA1]

/-- Records fetched on tick 3 of the scenario. -/
def predsTick3 : List Prediction := [predictionOfRaw rawPredA2]

def vehsTick1 : List Vehicle := [vehicleOfRaw sampleRawVehicle]

def vehsTick2 : List Vehicle := [vehicleOfRaw sampleRawVehicle]

def vehsTick3 : List Vehicle := [vehicleOfRaw rawVehicleB]

/-- Scenario state after tick 1: no flush yet. -/
def stC8a : GatherPred.State :=
  { predictions := predsTick1, vehicles := vehsTick1, calls := 2,
    predFiles := [], vehFiles := [] }

/-- Scenario state after tick 2: still no flush. -/
def stC8b : GatherPred.State :=
  { predictions := predsTick1 ++ predsTick2, vehicles := vehsTick1 ++ vehsTick2,
    calls := 4, predFiles := [], vehFiles := [] }

/-- Scenario state after tick 3: exactly one file per record type, holding
the deduplicated union of the three ticks' records. -/
def stC8 : GatherPred.State :=
  { predictions := predsTick1 ++ predsTick2 ++ predsTick3
    vehicles := vehsTick1 ++ vehsTick2 ++ vehsTick3
    calls := 6
    predFiles :=
      [("predictions1700000000.csv",
        [predictionOfRaw rawPredA1, predictionOfRaw rawPredA2])]
    vehFiles :=
      [("vehicles1700000000.csv",
        [vehicleOfRaw sampleRawVehicle, vehicleOfRaw rawVehicleB])] }

/-- C8: a flush happens exactly after the ticks whose 1-indexed number is a
multiple of the cadence — each such step appends exactly one file per
record type and every other step writes nothing — and the scenario with
routes `"61A,61B"`, 3 ticks, flush every 3 ends, after tick 3 and not
before, with exactly one file per record type holding the deduplicated
union of the three ticks' records. -/
theorem C8_flush_cadence (net : Nat → Response) (routeIds : String)
    (fe : Nat) (now : Int) (i : Nat) (st st1 : GatherPred.State)
    (hstep : GatherPred.step net routeIds fe now i st = Except.ok st1) :
    (st1.predFiles.length =
        st.predFiles.length + (if (i + 1) % fe = 0 then 1 else 0)
      ∧ st1.vehFiles.length =
          st.vehFiles.length + (if (i + 1) % fe = 0 then 1 else 0))
    ∧ ((i + 1) % fe ≠ 0 →
        st1.predFiles = st.predFiles ∧ st1.vehFiles = st.vehFiles)
    ∧ (∀ net2 routeIds2 fe2 i2 (st2 st3 : GatherBus.State),
        GatherBus.step net2 routeIds2 fe2 i2 st2 = Except.ok st3 →
        st3.files.length =
          st2.files.length + (if (i2 + 1) % fe2 = 0 then 1 else 0))
    ∧ (GatherPred.run cnetC8 "61A,61B" 3 1700000000 1 = Except.ok stC8a
        ∧ stC8a.predFiles = [] ∧ stC8a.vehFiles = [])
    ∧ (GatherPred.run cnetC8 "61A,61B" 3 1700000000 2 = Except.ok stC8b
        ∧ stC8b.predFiles = [] ∧ stC8b.vehFiles = [])
    ∧ (GatherPred.run cnetC8 "61A,61B" 3 1700000000 3 = Except.ok stC8
        ∧ stC8.predFiles =
            [("predictions1700000000.csv", drop_duplicates stC8.predictions)]
        ∧ stC8.vehFiles =
            [("vehicles1700000000.csv", drop_duplicates stC8.vehicles)]
        ∧ stC8.predictions = predsTick1 ++ predsTick2 ++ predsTick3
        ∧ stC8.vehicles = vehsTick1 ++ vehsTick2 ++ vehsTick3) := by
  rcases GatherPred.pred_step_ok net routeIds fe now i st st1 hstep with
    ⟨-, -, hflush, hnoflush⟩
  refine ⟨?_, hnoflush, ?_, ⟨rfl, rfl, rfl⟩, ⟨rfl, rfl, rfl⟩,
    ⟨rfl, rfl, rfl, rfl, rfl⟩⟩
  · by_cases hf : (i + 1) % fe = 0
    · rcases hflush hf with ⟨hp, hv⟩
      rw [hp, hv, if_pos hf]
      simp
    · rcases hnoflush hf with ⟨hp, hv⟩
      rw [hp, hv, if_neg hf]
      simp
  · intro net2 routeIds2 fe2 i2 st2 st3 hs
    rcases GatherBus.bus_step_ok net2 routeIds2 fe2 i2 st2 st3 hs with
      ⟨-, -, hbflush, hbnoflush⟩
    by_cases hf : (i2 + 1) % fe2 = 0
    · rcases hbflush hf with ⟨name, hfl⟩
      rw [hfl, if_pos hf]
      simp
    · rw [hbnoflush hf, if_neg hf]
      simp

theorem C8_witness :
    GatherPred.step cnetC8 "61A,61B" 3 1700000000 2 stC8b = Except.ok stC8
    ∧ stC8.predFiles.length = stC8b.predFiles.length + 1 := by
  have h := C8_flush_cadence cnetC8 "61A,61B" 3 1700000000 2 stC8b stC8 rfl
  exact ⟨rfl, by simpa using h.1.1⟩

/-! ### C9 -/

/-- C9: when a flush boundary is reached in `gather_bus_updates.py` with
an empty vehicle buffer, the file-naming access `vehicles[0]` raises
`IndexError` and the run aborts — flushing has the unstated precondition
that the buffer is non-empty, and with a non-empty buffer the same step
succeeds. -/
theorem C9_empty_buffer_flush_aborts (net : Nat → Response)
    (routeIds : String) (fe i : Nat) (st : GatherBus.State)
    (hflush : (i + 1) % fe = 0) (hempty : st.vehicles = [])
    (hfail : (net st.calls).status_code ≠ 200) :
    GatherBus.step net routeIds fe i st = Except.error PyErr.indexError
    ∧ (∀ fuel, GatherBus.runFrom net routeIds fe i (fuel + 1) st =
        Except.error PyErr.indexError)
    ∧ (∀ st2 : GatherBus.State, st2.vehicles ≠ [] →
        (net st2.calls).status_code ≠ 200 →
        ∃ st3, GatherBus.step net routeIds fe i st2 = Except.ok st3) := by
  have hstep : GatherBus.step net routeIds fe i st =
      Except.error PyErr.indexError := by
    rw [GatherBus.step]
    simp [get_vehicles_of_fail net routeIds st.calls hfail, hflush, hempty]
  refine ⟨hstep, ?_, ?_⟩
  · intro fuel
    rw [GatherBus.runFrom, hstep]
  · intro st2 hne hfail2
    rcases hv : st2.vehicles with _ | ⟨v0, rest⟩
    · exact absurd hv hne
    · rw [GatherBus.step]
      simp [get_vehicles_of_fail net routeIds st2.calls hfail2, hflush, hv]

theorem C9_witness :
    GatherBus.step net500 GatherBus.ROUTE_ID 600 599 GatherBus.init =
      Except.error PyErr.indexError :=
  (C9_empty_buffer_flush_aborts net500 GatherBus.ROUTE_ID 600 599
    GatherBus.init (by decide) rfl (by decide)).1

end BusData
